import Mathlib

set_option maxHeartbeats 1000000
set_option maxRecDepth 4000

/- Verification of scripts/data/client.py: a weighted admission-control
pipeline consisting of a weight ledger (current_weight guarded by a
condition variable), a bounded job queue, a producer thread, a pool of
consumer threads, a job generator and a job executor, all observing a
shared cancellation token.

Pure pieces of the script (weight computation, outcome classification of a
finished child process, the height-range selection) are translated directly
as functions. The concurrent producer/consumer loops are embedded in two
complementary ways: as pure functions over the finite sequence of
observations one thread makes (queue entries pulled, cancellation flag
values read at each check point), and as a small-step transition relation
on the shared state (ledger counter, queue contents, in-flight weights,
cancellation flag) whose atomic steps are exactly the lock-protected
blocks of the script. Randomness (random.randint) is embedded as an oracle
parameter constrained by the documented contract of randint, namely that
randint(lo, hi) returns an integer in the closed interval [lo, hi]. -/

namespace Client

/-! Character and string helpers mirroring the regular expressions used by
the script: re.search gas_spent pattern, the two error-message patterns,
re.sub whitespace collapsing, and the Python substring test. -/

/-- Python regex class backslash-s restricted to ASCII: space, tab, newline,
vertical tab, form feed, carriage return. All strings handled by the script
in the embedded fragments are ASCII. -/
def isPySpace (c : Char) : Bool :=
  c = ' ' || c = Char.ofNat 9 || c = Char.ofNat 10 || c = Char.ofNat 11 ||
    c = Char.ofNat 12 || c = Char.ofNat 13

/-- Helper for whitespace collapsing: the Bool records whether the previous
kept character position was inside a whitespace run. -/
def collapseWsAux : Bool → List Char → List Char
  | _, [] => []
  | prevSpace, c :: rest =>
    if isPySpace c then
      if prevSpace then collapseWsAux true rest
      else ' ' :: collapseWsAux true rest
    else c :: collapseWsAux false rest

/-- Embeds re.sub applied to the whitespace-run pattern with a single space
replacement (client.py line 195): every maximal run of whitespace becomes
one space. -/
def collapseWs (s : String) : String := String.mk (collapseWsAux false s.data)

/-- Tests whether the first list starts with the second list. -/
def listStartsWith : List Char → List Char → Bool
  | _, [] => true
  | [], _ :: _ => false
  | c :: cs, p :: ps => (c = p) && listStartsWith cs ps

/-- Tests whether pat occurs as a contiguous substring, as the Python
membership test on str does. -/
def hasSub (pat : List Char) : List Char → Bool
  | [] => listStartsWith [] pat
  | c :: rest => listStartsWith (c :: rest) pat || hasSub pat rest

/-- Python substring membership test on strings. -/
def containsStr (s pat : String) : Bool := hasSub pat.data s.data

/-- Embeds the failure-marker test of client.py lines 167-172: the marker
scan reads only the captured standard output of the child process. -/
def hasFailureMarker (stdout : String) : Bool :=
  containsStr stdout "FAIL" || containsStr stdout "error" ||
    containsStr stdout "panicked"

/-- Longest run of decimal digits at the head of the list, used for the
captured group of the gas_spent pattern. -/
def leadingDigits : List Char → List Char
  | [] => []
  | c :: rest => if c.isDigit then c :: leadingDigits rest else []

/-- Decimal value of a digit string, as int() applied to the captured
group. -/
def digitsToNat (ds : List Char) : Nat :=
  ds.foldl (fun acc c => acc * 10 + (c.toNat - 48)) 0

/-- The literal part of the gas_spent regular expression. -/
def gasPat : List Char := "gas_spent=".data

/-- Leftmost-match scan for the gas_spent pattern: at each position, the
pattern matches when the literal part is followed by at least one digit;
the captured number is the maximal digit run after the equals sign. -/
def searchGasAux : List Char → Option Nat
  | [] => none
  | c :: rest =>
    if listStartsWith (c :: rest) gasPat then
      let ds := leadingDigits ((c :: rest).drop gasPat.length)
      if ds.isEmpty then searchGasAux rest else some (digitsToNat ds)
    else searchGasAux rest

/-- Embeds re.search of the gas_spent pattern with int() applied to the
captured digit group (client.py lines 175 and 200). -/
def searchGasSpent (s : String) : Option Nat := searchGasAux s.data

/-- The single-quote character, written via its code point. -/
def quoteChar : Char := Char.ofNat 39

/-- The literal prefix of the quoted-error regular expression: the word
error, an equals sign and an opening single quote. -/
def errQuotePat : List Char := "error=".data ++ [quoteChar]

/-- Characters up to (excluding) the next single quote; none when no
closing quote exists, in which case the pattern does not match at this
position. -/
def takeUntilQuote : List Char → Option (List Char)
  | [] => none
  | c :: rest =>
    if c = quoteChar then some []
    else Option.map (fun l => c :: l) (takeUntilQuote rest)

/-- Leftmost-match scan for the quoted-error pattern. The captured group is
a maximal run of non-quote characters terminated by a closing quote. -/
def searchErrQuotedAux : List Char → Option (List Char)
  | [] => none
  | c :: rest =>
    if listStartsWith (c :: rest) errQuotePat then
      match takeUntilQuote ((c :: rest).drop errQuotePat.length) with
      | some content => some content
      | none => searchErrQuotedAux rest
    else searchErrQuotedAux rest

/-- Embeds re.search of the quoted-error pattern (client.py line 184). -/
def searchErrorQuoted (s : String) : Option String :=
  Option.map String.mk (searchErrQuotedAux s.data)

/-- The literal part of the generic error pattern: the word error, a colon
and a space. -/
def errColonPat : List Char := "error: ".data

/-- Leftmost-match scan for the generic error pattern compiled with the
DOTALL flag: the greedy captured group extends to the end of the string. -/
def searchErrColonAux : List Char → Option (List Char)
  | [] => none
  | c :: rest =>
    if listStartsWith (c :: rest) errColonPat then
      some ((c :: rest).drop errColonPat.length)
    else searchErrColonAux rest

/-- Embeds re.search of the generic error pattern with DOTALL (client.py
line 188). -/
def searchErrorColon (s : String) : Option String :=
  Option.map String.mk (searchErrColonAux s.data)

/-! Outcome classification of a completed child-process invocation,
client.py lines 167-206 (process_batch). The logging calls are abstracted
into the returned report value. -/

/-- Terminal report for a job whose child process ran to completion: either
a success carrying the extracted gas figure when one was found, or a
failure carrying the message passed to the error log. -/
inductive JobReport where
  | success (gas : Option Nat)
  | failed (message : String)
deriving DecidableEq

/-- Embeds the out-of-memory failure message built at client.py lines
174-182 for exit status -9: the gas figure is pattern-matched from standard
output and appended, with a fixed fallback text when absent. -/
def oomMessage (stdout : String) : String :=
  match searchGasSpent stdout with
  | some n => "Return code -9, killed by OOM?" ++ ", gas spent: " ++ toString n
  | none => "Return code -9, killed by OOM?" ++ ", no gas info found"

/-- Embeds the message extraction of client.py lines 184-193: first the
quoted-error pattern, then the generic error pattern, then the raw combined
output. -/
def extractedMessage (error : String) : String :=
  match searchErrorQuoted error with
  | some m => m
  | none =>
    match searchErrorColon error with
    | some m => m
    | none => error

/-- Embeds the classification of a completed invocation, client.py lines
167-206: failure when the exit status is nonzero or standard output holds a
failure marker, with the OOM special case for exit status -9 and whitespace
collapsing of the logged message; success otherwise, carrying the extracted
gas figure when present. The binding of error mirrors the Python
short-circuit that falls back to standard error only when standard output
is the empty string. -/
def process_batch_report (stdout stderr : String) (returncode : Int) : JobReport :=
  if (decide (returncode ≠ 0) || hasFailureMarker stdout) = true then
    let error := if stdout = "" then stderr else stdout
    if returncode = -9 then JobReport.failed (collapseWs (oomMessage stdout))
    else JobReport.failed (collapseWs (extractedMessage error))
  else JobReport.success (searchGasSpent stdout)

/-! Batch data model and weight computation, client.py lines 88-96. Fields
of the JSON objects that the script never reads are omitted; the entries of
the inputs and outputs arrays are opaque to the script, so they are
represented by Unit. -/

/-- A transaction of a block: only the lengths of its inputs and outputs
arrays are read by the script. -/
structure Transaction where
  inputs : List Unit
  outputs : List Unit
deriving DecidableEq

/-- The data object of a block, holding its transactions array. -/
structure BlockData where
  transactions : List Transaction
deriving DecidableEq

/-- A block of a generated batch. -/
structure Block where
  data : BlockData
deriving DecidableEq

/-- A generated batch: the blocks array of the block_data JSON object. -/
structure BlockBatch where
  blocks : List Block
deriving DecidableEq

/-- Embeds calculate_batch_weight (client.py lines 88-96): in light mode
the number of blocks, otherwise the sum over every transaction of every
block of the sizes of its inputs and outputs arrays. -/
def calculate_batch_weight (block_data : BlockBatch) (mode : String) : Nat :=
  if mode = "light" then block_data.blocks.length
  else
    (block_data.blocks.map
      (fun block =>
        ((block.data.transactions).map
          (fun tx => tx.inputs.length + tx.outputs.length)).sum)).sum

/-- All transactions of a batch in order, used to state the full-mode
weight rule as one flat sum. -/
def allTransactions (bd : BlockBatch) : List Transaction :=
  bd.blocks.foldr (fun b acc => b.data.transactions ++ acc) []

/-! Job generation, client.py lines 100-142. -/

/-- Embeds the Job dataclass (client.py lines 99-109). -/
structure Job where
  height : Int
  step : Int
  mode : String
  weight : Nat
  batch_file : String
  execute_scripts : Bool
deriving DecidableEq

/-- Embeds the staging-file naming of client.py line 129. -/
def batch_file_name (mode : String) (height step : Int) : String :=
  mode ++ "_" ++ toString height ++ "_" ++ toString step ++ ".json"

/-- Length of the Python range with the given start, stop and step: zero
iterations for a zero step (where Python raises instead). -/
def pyRangeLen (start stop step : Int) : Nat :=
  if 0 < step then (((stop - start) + step - 1) / step).toNat
  else if step < 0 then (((start - stop) + (-step) - 1) / (-step)).toNat
  else 0

/-- The Python range as a list of integers. -/
def pyRange (start stop step : Int) : List Int :=
  (List.range (pyRangeLen start stop step)).map (fun k => start + k * step)

/-- Embeds the height-range selection of job_generator (client.py lines
117-123). The oracle rand models random.randint: rand i lo hi is the value
of the i-th call of randint(lo, hi), which by the randint contract lies in
the closed interval from lo to hi. The random strategy draws one sample per
element of range(start, end) and forces the step to 1; the sequential
strategy walks range(start, end, step). -/
def height_range_and_step (rand : Nat → Int → Int → Int)
    (start blocks step : Int) (strategy : String) : List Int × Int :=
  let e := start + blocks
  if strategy = "random" then
    ((List.range (pyRangeLen start e 1)).map (fun i => rand i start e), 1)
  else (pyRange start e step, step)

/-- Embeds the generation loop of job_generator (client.py lines 125-142).
genData models the external generate_data collaborator as a fallible
function of the height; cancelled i is the value of the cancellation token
read at the top of iteration i. On a generation error the height is skipped
and the loop continues; on success a Job and its weight are yielded; when
the token is observed set the sequence ends early. -/
def jobGenLoopFrom (genData : Int → Except String BlockBatch) (mode : String)
    (step : Int) (execute_scripts : Bool) (cancelled : Nat → Bool) :
    Nat → List Int → List (Job × Nat)
  | _, [] => []
  | i, h :: hs =>
    if cancelled i then []
    else
      match genData h with
      | Except.error _ =>
        jobGenLoopFrom genData mode step execute_scripts cancelled (i + 1) hs
      | Except.ok bd =>
        let w := calculate_batch_weight bd mode
        (⟨h, step, mode, w, batch_file_name mode h step, execute_scripts⟩, w) ::
          jobGenLoopFrom genData mode step execute_scripts cancelled (i + 1) hs

/-- Embeds job_generator (client.py lines 113-142) as the composition of
the height-range selection and the generation loop. -/
def job_generator (genData : Int → Except String BlockBatch)
    (rand : Nat → Int → Int → Int) (cancelled : Nat → Bool)
    (start blocks step : Int) (mode strategy : String)
    (execute_scripts : Bool) : List (Job × Nat) :=
  let hs := height_range_and_step rand start blocks step strategy
  jobGenLoopFrom genData mode hs.2 execute_scripts cancelled 0 hs.1

/-- Concrete generate_data model failing at height 100 and succeeding with
an empty batch elsewhere, used to exercise the skip-on-error law. -/
def genDataEx : Int → Except String BlockBatch :=
  fun h => if h = 100 then Except.error "boom" else Except.ok ⟨[]⟩

/-! Producer admission logic, client.py lines 218-265. -/

/-- The default weight ceiling of the script (client.py line 23). -/
def MAX_WEIGHT_LIMIT : Int := 8000

/-- Embeds the condition of the wait loop at client.py lines 231-237 with
Python operator precedence: the conjunction binds tighter than the
disjunction with the queue-full test. The producer keeps waiting while this
holds and the token is not set. -/
def producer_wait_cond (maxW cw w : Int) (queueFull : Bool) : Bool :=
  (decide (cw + w > maxW) && decide (cw ≠ 0)) || queueFull

/-- The producer admits the pending job exactly when the token is not set
and the wait condition has become false (client.py lines 231-248). -/
def producer_admits (maxW : Int) (cancelled : Bool) (cw w : Int)
    (queueFull : Bool) : Bool :=
  !cancelled && !(producer_wait_cond maxW cw w queueFull)

/-- Embeds the over-the-limit warning condition of client.py line 244. -/
def producer_overweight_warning (maxW cw w : Int) : Bool :=
  decide (cw + w > maxW) && decide (cw = 0)

/-- An entry appended to the bounded job queue: a real job (abstracted to
its weight) or the end-of-stream sentinel None. -/
inductive QueuePut where
  | job (w : Nat)
  | sentinel
deriving DecidableEq

/-- Cancellation-token values the producer observes while handling one
generated item: at the top of the for body (client.py line 223) and after
the wait loop (line 241). The wait loop itself exits either because the
token was set or because the admission predicate became true. -/
structure ProducerObs where
  cancelledAtTop : Bool
  cancelledAfterWait : Bool
deriving DecidableEq

/-- Embeds the for loop of job_producer (client.py lines 222-255) as the
sequence of queue puts it performs: the loop breaks at the first set token
observation, otherwise it enqueues the job. -/
def producerLoop : List (Nat × ProducerObs) → List QueuePut
  | [] => []
  | (w, o) :: rest =>
    if o.cancelledAtTop then []
    else if o.cancelledAfterWait then []
    else QueuePut.job w :: producerLoop rest

/-- Embeds job_producer (client.py lines 218-265): the body loop followed
unconditionally (Python finally) by one sentinel per worker. poolSize
models THREAD_POOL_SIZE. -/
def job_producer (poolSize : Nat) (items : List (Nat × ProducerObs)) :
    List QueuePut :=
  producerLoop items ++ List.replicate poolSize QueuePut.sentinel

/-- Recognizes the sentinel entry. -/
def isSentinelPut : QueuePut → Bool
  | QueuePut.sentinel => true
  | QueuePut.job _ => false

/-- Number of sentinel entries in a sequence of queue puts. -/
def countSentinels (l : List QueuePut) : Nat := l.countP isSentinelPut

/-! Consumer loop, client.py lines 269-317. -/

/-- What one iteration of the consumer loop pulls from the queue: a timeout
of the bounded get (queue.Empty), the sentinel None, or a real job
abstracted to its weight. -/
inductive QueueEvent where
  | empty
  | sentinel
  | job (w : Nat)
deriving DecidableEq

/-- Observations of one consumer-loop iteration: the token value read at
the while condition (client.py line 272), the entry pulled by the bounded
get, and the token value read after the get (line 290). -/
structure ConsumerObs where
  cancelledAtLoop : Bool
  event : QueueEvent
  cancelledAfterGet : Bool
deriving DecidableEq

/-- Embeds job_consumer (client.py lines 269-317) over the finite sequence
of observed iterations, returning the weights of the jobs whose execution
was attempted and the weights released back to the ledger, in order. A set
token at the while condition ends the loop; a timeout continues; a sentinel
ends the loop; a real job observed after cancellation is released without
execution; otherwise the job is executed (exceptions are caught) and its
weight is released afterwards. An exhausted observation list denotes a loop
still blocked in its next bounded get. -/
def job_consumer : List ConsumerObs → List Nat × List Nat
  | [] => ([], [])
  | o :: rest =>
    if o.cancelledAtLoop then ([], [])
    else
      match o.event with
      | QueueEvent.empty => job_consumer rest
      | QueueEvent.sentinel => ([], [])
      | QueueEvent.job w =>
        if o.cancelledAfterGet then ([], [w])
        else
          let p := job_consumer rest
          (w :: p.1, w :: p.2)

/-! Shared-state transition system: the lock-protected blocks of
job_producer and job_consumer as atomic steps on the shared state. -/

/-- The shared mutable state of the pipeline: the ledger counter
current_weight, the queue contents, the multiset (as a list) of weights
pulled by workers and not yet released, and the cancellation flag. -/
structure SchedState where
  current_weight : Int
  jobQueue : List (Option Nat)
  inFlight : List Nat
  cancelled : Bool
deriving DecidableEq

/-- The initial shared state of the script (client.py lines 30-32). -/
def initState : SchedState := ⟨0, [], [], false⟩

/-- Total weight of the real jobs currently in the queue; sentinels count
zero. -/
def queuedWeight (q : List (Option Nat)) : Nat :=
  (q.map (fun e => e.getD 0)).sum

/-- Atomic steps of the pipeline on the shared state. enqueueJob is the
lock-protected block of client.py lines 244-255 (enqueue plus increment,
guarded by the admission predicate re-checked under the lock); pushSentinel
is a put of None from the finally block (lines 259-260); take is a worker
pulling a real entry with the token unset (lines 279-300); takeSentinel is
a worker pulling None (lines 283-286); takeCancelled is a worker pulling a
real entry with the token set, which releases the weight without executing
(lines 290-295); release is the decrement block after processing (lines
304-309); cancel sets the token (idempotent and monotone). -/
inductive Step (maxW : Int) (cap : Nat) : SchedState → SchedState → Prop
  | cancel (s : SchedState) :
      Step maxW cap s { s with cancelled := true }
  | enqueueJob (s : SchedState) (w : Nat)
      (hadm : producer_admits maxW s.cancelled s.current_weight (w : Int)
        (decide (cap ≤ s.jobQueue.length)) = true) :
      Step maxW cap s
        { current_weight := s.current_weight + (w : Int),
          jobQueue := s.jobQueue ++ [some w],
          inFlight := s.inFlight, cancelled := s.cancelled }
  | pushSentinel (s : SchedState) :
      Step maxW cap s { s with jobQueue := s.jobQueue ++ [none] }
  | take (s : SchedState) (w : Nat) (rest : List (Option Nat))
      (hq : s.jobQueue = some w :: rest) (hc : s.cancelled = false) :
      Step maxW cap s { s with jobQueue := rest, inFlight := w :: s.inFlight }
  | takeSentinel (s : SchedState) (rest : List (Option Nat))
      (hq : s.jobQueue = none :: rest) :
      Step maxW cap s { s with jobQueue := rest }
  | takeCancelled (s : SchedState) (w : Nat) (rest : List (Option Nat))
      (hq : s.jobQueue = some w :: rest) (hc : s.cancelled = true) :
      Step maxW cap s
        { current_weight := s.current_weight - (w : Int),
          jobQueue := rest, inFlight := s.inFlight, cancelled := s.cancelled }
  | release (s : SchedState) (w : Nat) (pre post : List Nat)
      (hf : s.inFlight = pre ++ w :: post) :
      Step maxW cap s
        { current_weight := s.current_weight - (w : Int),
          jobQueue := s.jobQueue, inFlight := pre ++ post,
          cancelled := s.cancelled }

/-- States reachable from the initial state by atomic steps. -/
inductive Reachable (maxW : Int) (cap : Nat) : SchedState → Prop
  | init : Reachable maxW cap initState
  | step {s t : SchedState} (hr : Reachable maxW cap s)
      (hs : Step maxW cap s t) : Reachable maxW cap t

/-- The ledger invariant: the counter equals the weight admitted to the
queue plus the weight in flight in workers. -/
def weightInvariant (s : SchedState) : Prop :=
  s.current_weight = (queuedWeight s.jobQueue : Int) + (s.inFlight.sum : Int)

/-! The subprocess wrapper run (client.py lines 52-84) as invoked from
process_batch (line 152), which passes no timeout. -/

/-- How a call of run ends: the ShutdownRequested exception (reported as a
cancelled job by process_batch) or a normal return of the captured output
and exit status. -/
inductive RunOutcome where
  | shutdownRequested
  | completed
deriving DecidableEq

/-- Observable schedule of one run invocation on an abstract clock:
whether the child was spawned, when it actually exited, when (if ever)
terminate was sent to it, when run returned or raised, and the outcome. -/
structure RunTrace where
  childStarted : Bool
  childExitTime : Option Nat
  terminateTime : Option Nat
  returnTime : Nat
  outcome : RunOutcome
deriving DecidableEq

/-- Embeds run (client.py lines 52-84) as called from process_batch, i.e.
with timeout=None: d is the running time the child needs, cancelAt the
instant the token becomes set (none when it never is; 0 means before the
process starts). The token is read at exactly two points: before spawning
(line 56) and after communicate returns (line 66). communicate with
timeout=None returns only once the child has exited on its own, so the
TimeoutExpired branch is unreachable and any terminate/kill escalation runs
only after the child exit, at time d. -/
def run_no_timeout (d : Nat) (cancelAt : Option Nat) : RunTrace :=
  if cancelAt = some 0 then
    { childStarted := false, childExitTime := none, terminateTime := none,
      returnTime := 0, outcome := RunOutcome.shutdownRequested }
  else
    let cancelledWhenChildExits : Bool :=
      match cancelAt with
      | some t => decide (t ≤ d)
      | none => false
    if cancelledWhenChildExits then
      { childStarted := true, childExitTime := some d, terminateTime := some d,
        returnTime := d, outcome := RunOutcome.shutdownRequested }
    else
      { childStarted := true, childExitTime := some d, terminateTime := none,
        returnTime := d, outcome := RunOutcome.completed }

/-! Helper lemmas. -/

theorem queuedWeight_append (q : List (Option Nat)) (e : Option Nat) :
    queuedWeight (q ++ [e]) = queuedWeight q + e.getD 0 := by
  simp [queuedWeight]

theorem queuedWeight_cons (e : Option Nat) (q : List (Option Nat)) :
    queuedWeight (e :: q) = e.getD 0 + queuedWeight q := by
  simp [queuedWeight]

theorem reachable_invariant (maxW : Int) (cap : Nat) (s : SchedState)
    (h : Reachable maxW cap s) : weightInvariant s := by
  induction h with
  | init => simp [weightInvariant, initState, queuedWeight]
  | step hr hst ih =>
    cases hst with
    | cancel => simpa [weightInvariant] using ih
    | enqueueJob w hadm =>
      simp only [weightInvariant] at ih ⊢
      simp only [queuedWeight_append, Option.getD_some]
      omega
    | pushSentinel =>
      simp only [weightInvariant] at ih ⊢
      simp only [queuedWeight_append, Option.getD_none]
      omega
    | take w rest hq hc =>
      simp only [weightInvariant] at ih ⊢
      rw [hq] at ih
      simp only [queuedWeight_cons, Option.getD_some, List.sum_cons] at ih ⊢
      omega
    | takeSentinel rest hq =>
      simp only [weightInvariant] at ih ⊢
      rw [hq] at ih
      simp only [queuedWeight_cons, Option.getD_none] at ih
      omega
    | takeCancelled w rest hq hc =>
      simp only [weightInvariant] at ih ⊢
      rw [hq] at ih
      simp only [queuedWeight_cons, Option.getD_some] at ih
      omega
    | release w pre post hf =>
      simp only [weightInvariant] at ih ⊢
      rw [hf] at ih
      simp only [List.sum_append, List.sum_cons] at ih ⊢
      omega

theorem producerLoop_no_sentinel (items : List (Nat × ProducerObs)) :
    countSentinels (producerLoop items) = 0 := by
  induction items with
  | nil => rfl
  | cons x rest ih =>
    obtain ⟨w, o⟩ := x
    by_cases h1 : o.cancelledAtTop
    · simp [producerLoop, h1, countSentinels]
    · by_cases h2 : o.cancelledAfterWait
      · simp [producerLoop, h1, h2, countSentinels]
      · simp only [producerLoop, h1, h2, if_false, countSentinels,
          List.countP_cons] at ih ⊢
        simpa [isSentinelPut, countSentinels] using ih

theorem countSentinels_replicate (n : Nat) :
    countSentinels (List.replicate n QueuePut.sentinel) = n := by
  induction n with
  | zero => rfl
  | succ k ih =>
    simp only [List.replicate_succ, countSentinels, List.countP_cons,
      isSentinelPut] at ih ⊢
    simpa using ih

theorem allTransactions_cons (b : Block) (bs : List Block) :
    allTransactions ⟨b :: bs⟩ = b.data.transactions ++ allTransactions ⟨bs⟩ :=
  rfl

/-! Claim theorems. -/

/-- C1: in every reachable shared state, the ledger counter current_weight
is nonnegative and equals the sum of the weights of the jobs admitted to
the queue plus the weights in flight in workers and not yet released; the
atomic steps add each admitted weight exactly once (enqueueJob) and subtract it
exactly once when processing completes by success, failure or cancellation
(release, takeCancelled). -/
theorem weight_ledger_invariant (maxW : Int) (cap : Nat) (s : SchedState)
    (h : Reachable maxW cap s) :
    s.current_weight = (queuedWeight s.jobQueue : Int) + (s.inFlight.sum : Int) ∧
      0 ≤ s.current_weight := by
  have hi := reachable_invariant maxW cap s h
  simp only [weightInvariant] at hi
  exact ⟨hi, by omega⟩

/-- Witness for C1: the invariant holds in the concrete state reached from
the initial state by admitting one job of weight 5 (ceiling 8000, queue
capacity 8). -/
theorem weight_ledger_invariant_witness :
    ((5 : Int) = (queuedWeight [some 5] : Int) + (([] : List Nat).sum : Int)) ∧
      0 ≤ (5 : Int) :=
  weight_ledger_invariant 8000 8 ⟨5, [some 5], [], false⟩
    (Reachable.step Reachable.init (Step.enqueueJob initState 5 (by decide)))

/-- C2: the producer admits a pending job exactly when the ledger counter
plus the weight stays at or under the ceiling or the counter is zero, and
the queue is not full, and the token is not set; in particular a job whose
weight alone exceeds the ceiling is admitted when the counter is zero and
the over-the-limit warning condition fires for it. -/
theorem producer_admission_rule (cancelled queueFull : Bool) (cw w : Int) :
    (producer_admits MAX_WEIGHT_LIMIT cancelled cw w queueFull = true ↔
      ((cw + w ≤ MAX_WEIGHT_LIMIT ∨ cw = 0) ∧ queueFull = false ∧
        cancelled = false)) ∧
    (MAX_WEIGHT_LIMIT < w →
      producer_admits MAX_WEIGHT_LIMIT false 0 w false = true ∧
        producer_overweight_warning MAX_WEIGHT_LIMIT 0 w = true) := by
  constructor
  · cases cancelled <;> cases queueFull <;>
      simp [producer_admits, producer_wait_cond] <;> omega
  · intro hw
    constructor <;>
      simp [producer_admits, producer_wait_cond, producer_overweight_warning] <;>
      omega

/-- Witness for C2: a job of weight 9000 exceeding the ceiling 8000 is
admitted when the counter is zero, and the warning condition fires. -/
theorem producer_admission_rule_witness :
    producer_admits MAX_WEIGHT_LIMIT false 0 9000 false = true ∧
      producer_overweight_warning MAX_WEIGHT_LIMIT 0 9000 = true :=
  (producer_admission_rule false false 0 9000).2 (by decide)

/-- C3: a consumer that observes the token set at its loop check returns at
once without pulling further entries; a consumer that pulls a real entry
and then observes the token set skips execution but still releases exactly
that weight to the ledger; the producer observing the token set at either
of its check points stops enqueueing immediately. -/
theorem cancellation_releases_weight :
    (∀ (e : QueueEvent) (b : Bool) (rest : List ConsumerObs),
      job_consumer (⟨true, e, b⟩ :: rest) = ([], [])) ∧
    (∀ (w : Nat) (rest : List ConsumerObs),
      job_consumer (⟨false, QueueEvent.job w, true⟩ :: rest) = ([], [w])) ∧
    (∀ (w : Nat) (c : Bool) (rest : List (Nat × ProducerObs)),
      producerLoop ((w, ⟨true, c⟩) :: rest) = []) ∧
    (∀ (w : Nat) (rest : List (Nat × ProducerObs)),
      producerLoop ((w, ⟨false, true⟩) :: rest) = []) :=
  ⟨fun _ _ _ => rfl, fun _ _ => rfl, fun _ _ _ => rfl, fun _ _ => rfl⟩

/-- C4: the executor classifies a completed invocation as a success exactly
when the exit status is zero and standard output holds none of the markers
FAIL, error, panicked, reporting the extracted gas figure; any nonzero
status or marker yields a failure; concretely, output gas_spent=12345 with
status 0 is a success with cost 12345, the same output with status -9 is
the OOM failure embedding 12345, and a marker with no structured error
pattern falls back to the raw output with whitespace collapsed. -/
theorem executor_classification (out err : String) (rc : Int) :
    (hasFailureMarker out = false →
      process_batch_report out err 0 = JobReport.success (searchGasSpent out)) ∧
    ((decide (rc ≠ 0) || hasFailureMarker out) = true →
      ∃ m, process_batch_report out err rc = JobReport.failed m) ∧
    process_batch_report "gas_spent=12345" "" 0 = JobReport.success (some 12345) ∧
    process_batch_report "gas_spent=12345" "" (-9) =
      JobReport.failed "Return code -9, killed by OOM?, gas spent: 12345" ∧
    process_batch_report "FAIL  badly" "" 0 = JobReport.failed "FAIL badly" := by
  refine ⟨?_, ?_, by decide, by decide, by decide⟩
  · intro h
    simp [process_batch_report, h]
  · intro h
    by_cases h9 : rc = -9
    · refine ⟨collapseWs (oomMessage out), ?_⟩
      unfold process_batch_report
      rw [if_pos h, if_pos h9]
    · refine ⟨collapseWs (extractedMessage (if out = "" then err else out)), ?_⟩
      unfold process_batch_report
      rw [if_pos h, if_neg h9]

/-- Witness for C4: clean output with status 0 is a success, and status 5
is a failure. -/
theorem executor_classification_witness :
    process_batch_report "ok" "" 0 = JobReport.success (searchGasSpent "ok") ∧
      ∃ m, process_batch_report "ok" "" 5 = JobReport.failed m :=
  ⟨(executor_classification "ok" "" 0).1 (by decide),
    (executor_classification "ok" "" 5).2.1 (by decide)⟩

/-- C5 counterexample: the claim that random-strategy heights are drawn
from the half-open interval from 100 to 105 is false. The oracle returning
the upper bound is a legitimate randint behaviour, since randint(lo, hi)
includes both endpoints; under it every drawn height is 105, which is not
below 100 + 5. -/
theorem random_interval_counterexample :
    ((100 : Int) ≤ 105 ∧ (105 : Int) ≤ 105) ∧
    (height_range_and_step (fun _ _ hi => hi) 100 5 2 "random").1 =
      [105, 105, 105, 105, 105] ∧
    (height_range_and_step (fun _ _ hi => hi) 100 5 2 "random").2 = 1 ∧
    ¬ ((105 : Int) < 100 + 5) := by decide

/-- C5 (amended): the sequential strategy with start 100, blocks 5, step 2
yields exactly the heights 100, 102, 104 in order; the random strategy with
the same inputs yields exactly 5 heights, each sampled from the closed
interval from 100 to 105 (randint includes both endpoints), and forces the
step to 1 regardless of the requested step. -/
theorem strategy_heights_amended (rand : Nat → Int → Int → Int)
    (hr : ∀ i, 100 ≤ rand i 100 105 ∧ rand i 100 105 ≤ 105) :
    (height_range_and_step rand 100 5 2 "sequential").1 = [100, 102, 104] ∧
    (height_range_and_step rand 100 5 2 "sequential").2 = 2 ∧
    (height_range_and_step rand 100 5 2 "random").1.length = 5 ∧
    (height_range_and_step rand 100 5 2 "random").2 = 1 ∧
    ∀ h ∈ (height_range_and_step rand 100 5 2 "random").1,
      100 ≤ h ∧ h ≤ 105 := by
  have hseq : height_range_and_step rand 100 5 2 "sequential" =
      (pyRange 100 105 2, 2) := rfl
  have hone : (height_range_and_step rand 100 5 2 "random").1 =
      (List.range 5).map (fun i => rand i 100 105) := rfl
  have htwo : (height_range_and_step rand 100 5 2 "random").2 = 1 := rfl
  refine ⟨?_, ?_, ?_, htwo, ?_⟩
  · rw [hseq]
    decide
  · rw [hseq]
  · rw [hone]
    simp
  · intro h hh
    rw [hone] at hh
    obtain ⟨i, hi, rfl⟩ := List.mem_map.mp hh
    exact hr i

/-- Witness for C5: the amended statement at the constant oracle 100. -/
theorem strategy_heights_amended_witness :
    (height_range_and_step (fun _ _ _ => (100 : Int)) 100 5 2 "sequential").1 =
      [100, 102, 104] ∧
    (height_range_and_step (fun _ _ _ => (100 : Int)) 100 5 2 "random").1.length
      = 5 := by
  have h := strategy_heights_amended (fun _ _ _ => (100 : Int))
    (fun _ => ⟨by norm_num, by norm_num⟩)
  exact ⟨h.1, h.2.2.1⟩

/-- C6: the weight of a generated batch is a deterministic function of the
batch and the mode: in light mode the number of blocks, in full mode the
total count of inputs plus outputs over every transaction of every block. -/
theorem batch_weight_rule (bd : BlockBatch) :
    calculate_batch_weight bd "light" = bd.blocks.length ∧
    calculate_batch_weight bd "full" =
      ((allTransactions bd).map
        (fun tx => tx.inputs.length + tx.outputs.length)).sum := by
  constructor
  · simp [calculate_batch_weight]
  · obtain ⟨bs⟩ := bd
    have hfull : ∀ l : List Block, calculate_batch_weight ⟨l⟩ "full" =
        (l.map (fun block => ((block.data.transactions).map
          (fun tx => tx.inputs.length + tx.outputs.length)).sum)).sum :=
      fun _ => rfl
    rw [hfull bs]
    induction bs with
    | nil => rfl
    | cons b rest ih =>
      rw [List.map_cons, List.sum_cons, ih, allTransactions_cons,
        List.map_append, List.sum_append]

/-- C7: evaluation of the run wrapper at a cancellation arriving at time 1
while the child needs 1000 time units. The code blocks in communicate until
the child exits on its own at time 1000; terminate is sent only then, to an
already-exited process, and run returns at time 1000 — far beyond the
claimed prompt terminate-wait-kill escalation — although the outcome is
indeed reported as cancelled. The final conjunct states generally that
terminate is never sent before the child has exited. -/
theorem run_cancel_observed_only_after_child_exit :
    run_no_timeout 1000 (some 1) =
      { childStarted := true, childExitTime := some 1000,
        terminateTime := some 1000, returnTime := 1000,
        outcome := RunOutcome.shutdownRequested } ∧
    ¬ ((1000 : Nat) ≤ 1 + 5) ∧
    ∀ (d : Nat) (c : Option Nat), (run_no_timeout d c).terminateTime = none ∨
      (run_no_timeout d c).terminateTime = (run_no_timeout d c).childExitTime := by
  refine ⟨by decide, by decide, ?_⟩
  intro d c
  by_cases h0 : c = some 0
  · simp [run_no_timeout, h0]
  · cases c with
    | none => simp [run_no_timeout]
    | some t =>
      by_cases ht : t ≤ d <;> simp [run_no_timeout, h0, ht]

/-- C8: the producer puts exactly poolSize sentinels on the queue, on every
exit path; when cancellation is observed at the top of the loop the whole
output is exactly the poolSize sentinels (they are appended even when
cancelled); and a consumer pulling a sentinel terminates at once. -/
theorem producer_sentinel_contract :
    (∀ (poolSize : Nat) (items : List (Nat × ProducerObs)),
      countSentinels (job_producer poolSize items) = poolSize) ∧
    (∀ (poolSize w : Nat) (c : Bool) (rest : List (Nat × ProducerObs)),
      job_producer poolSize ((w, ⟨true, c⟩) :: rest) =
        List.replicate poolSize QueuePut.sentinel) ∧
    (∀ (b : Bool) (rest : List ConsumerObs),
      job_consumer (⟨false, QueueEvent.sentinel, b⟩ :: rest) = ([], [])) := by
  refine ⟨?_, ?_, fun _ _ => rfl⟩
  · intro p items
    have h1 := producerLoop_no_sentinel items
    have h2 := countSentinels_replicate p
    simp only [job_producer, countSentinels, List.countP_append] at h1 h2 ⊢
    omega
  · intro p w c rest
    simp [job_producer, producerLoop]

/-- C9: when payload generation fails for a height and cancellation has not
been observed, the generator yields nothing for that height and continues
with the subsequent heights; a per-item failure never ends the sequence. -/
theorem generation_failure_skips (genData : Int → Except String BlockBatch)
    (mode : String) (step : Int) (es : Bool) (cancelled : Nat → Bool)
    (i : Nat) (e : String) (h : Int) (hs : List Int)
    (hc : cancelled i = false) (hg : genData h = Except.error e) :
    jobGenLoopFrom genData mode step es cancelled i (h :: hs) =
      jobGenLoopFrom genData mode step es cancelled (i + 1) hs := by
  simp [jobGenLoopFrom, hc, hg]

/-- Witness for C9: the model generator failing at height 100 skips it and
the sequence continues with height 101, which yields a job. -/
theorem generation_failure_skips_witness :
    jobGenLoopFrom genDataEx "light" 1 false (fun _ => false) 0 [100, 101] =
      jobGenLoopFrom genDataEx "light" 1 false (fun _ => false) 1 [101] :=
  generation_failure_skips genDataEx "light" 1 false (fun _ => false) 0
    "boom" 100 [101] rfl rfl

/-- C10: the failure-marker scan reads only standard output: every
invocation with exit status 0 whose standard output holds no marker is a
success whatever standard error holds; whenever standard output is
nonempty the report does not depend on standard error at all; and when
standard output is empty and the run failed (other than the OOM status,
whose message is built from standard output alone), standard error is the
fallback source of the failure message. -/
theorem stderr_not_consulted_for_markers :
    (∀ (out err : String), hasFailureMarker out = false →
      process_batch_report out err 0 = JobReport.success (searchGasSpent out)) ∧
    (∀ (out err errAlt : String) (rc : Int), out ≠ "" →
      process_batch_report out err rc = process_batch_report out errAlt rc) ∧
    (∀ (err : String) (rc : Int), rc ≠ 0 → rc ≠ -9 →
      process_batch_report "" err rc =
        JobReport.failed (collapseWs (extractedMessage err))) := by
  refine ⟨?_, ?_, ?_⟩
  · intro out err h
    simp [process_batch_report, h]
  · intro out err errAlt rc hout
    simp only [process_batch_report, if_neg hout]
  · intro err rc h0 h9
    have hc : (decide (rc ≠ 0) || hasFailureMarker "") = true := by
      simp [h0]
    simp only [process_batch_report]
    rw [if_pos hc, if_neg h9]
    simp

/-- Witness for C10: the universal statements exercised at concrete
invocations: clean output with marker-filled standard error is a success;
a nonempty standard output makes two different standard errors give the
same report; an empty standard output with exit 3 takes its failure
message from standard error. -/
theorem stderr_not_consulted_for_markers_witness :
    process_batch_report "done" "error: boom FAIL panicked" 0 =
      JobReport.success (searchGasSpent "done") ∧
    process_batch_report "FAIL" "error: fromstderr" 1 =
      process_batch_report "FAIL" "other" 1 ∧
    process_batch_report "" "error: boom" 3 =
      JobReport.failed (collapseWs (extractedMessage "error: boom")) :=
  ⟨stderr_not_consulted_for_markers.1 "done" "error: boom FAIL panicked"
      (by decide),
    stderr_not_consulted_for_markers.2.1 "FAIL" "error: fromstderr" "other" 1
      (by decide),
    stderr_not_consulted_for_markers.2.2 "error: boom" 3 (by decide) (by decide)⟩

end Client
